import Mathlib

/-!
# StellarCredit AI engine — shallow embedding and verification

This file embeds the credit-scoring core of `src/ai-engine/stellar_ai_scoring.py`
in Lean 4 and proves properties of it.  Python floats are modelled as exact
rationals (ℚ); Python `int(x)` (truncation toward zero) is modelled by
`pyInt`; timestamps are rationals measured in days; fallible parsing is
modelled with `Option`.
-/

namespace StellarCredit

/-- Python `int(x)` applied to a real number: truncation toward zero
(floor for non-negative arguments, ceiling for negative ones). -/
def pyInt (q : ℚ) : ℤ :=
  if q < 0 then ⌈q⌉ else ⌊q⌋

/-- `TransactionData` dataclass: one normalized Stellar transaction.
Timestamps are rationals counted in days. -/
structure TransactionData where
  id : String
  type : String
  amount : ℚ
  asset : String
  from_address : String
  to_address : String
  timestamp : ℚ
  successful : Bool
  memo : Option String
deriving Repr, DecidableEq

/-- `WalletMetrics` dataclass: the eight behavioral features. -/
structure WalletMetrics where
  total_volume_3m : ℚ
  transaction_count_3m : ℤ
  avg_balance : ℚ
  payment_punctuality : ℚ
  usage_frequency : ℚ
  diversification_score : ℚ
  age_score : ℚ
  network_activity : ℚ
deriving Repr, DecidableEq

/-- `CreditScore` dataclass: the final analysis result. -/
structure CreditScore where
  score : ℤ
  metrics : WalletMetrics
  risk_level : String
  max_loan_amount : ℚ
  interest_rate : ℚ
  recommendations : List String
deriving Repr, DecidableEq

/-- The pre-scaling sum of `_calculate_credit_score`: weighted sum of the
five normalized features plus the age and network bonuses (the local
variable `final_score` in the source). -/
def creditScoreSum (m : WalletMetrics) : ℚ :=
  let normalized_volume := min (m.total_volume_3m / 50000) 1
  let normalized_frequency := min (m.usage_frequency / 100) 1
  let normalized_balance := min (m.avg_balance / 10000) 1
  let weighted_score :=
    normalized_volume * 0.20 +
    m.payment_punctuality * 0.30 +
    normalized_frequency * 0.15 +
    m.diversification_score * 0.20 +
    normalized_balance * 0.15
  let age_bonus := m.age_score * 0.1
  let network_bonus := m.network_activity * 0.05
  weighted_score + age_bonus + network_bonus

/-- `_calculate_credit_score`: scale the sum to an integer score,
capped at 1000 (`int(min(final_score * 1000, 1000))`). -/
def calculateCreditScore (m : WalletMetrics) : ℤ :=
  pyInt (min (creditScoreSum m * 1000) 1000)

/-- `_determine_loan_terms`: risk level, maximum loan and interest rate
from the score, thresholds evaluated top-down. -/
def determineLoanTerms (score : ℤ) : String × ℚ × ℚ :=
  if score ≥ 750 then ("LOW", 2000.0, 0.02)
  else if score ≥ 600 then ("LOW", 1000.0, 0.025)
  else if score ≥ 450 then ("MEDIUM", 500.0, 0.04)
  else if score ≥ 300 then ("MEDIUM", 200.0, 0.06)
  else ("HIGH", 0.0, 0.10)

/-- `_default_metrics`: the all-zero metrics vector. -/
def defaultMetrics : WalletMetrics :=
  { total_volume_3m := 0.0
    transaction_count_3m := 0
    avg_balance := 0.0
    payment_punctuality := 0.0
    usage_frequency := 0.0
    diversification_score := 0.0
    age_score := 0.0
    network_activity := 0.0 }

/-- A raw Horizon operation record, as consumed by `_parse_payment_operation`
and the fetch loop.  Every field the Python code reads from the dict is an
`Option`: `none` models a missing key, or (for `created_at`) an unparsable
timestamp, or (for amounts) a value `float()` rejects — each of which raises
in Python and is mapped to `none` here.  The dict keys `from`/`to` are the
fields `fromAddr`/`toAddr` (`from` is a Lean keyword). -/
structure RawOperation where
  id : Option String
  type : Option String
  created_at : Option ℚ
  fromAddr : Option String
  toAddr : Option String
  amount : Option ℚ
  asset_type : Option String
  source_amount : Option ℚ
  source_asset_type : Option String
  successful : Option Bool
  memo : Option String
deriving Repr, DecidableEq

/-- `_parse_payment_operation`: convert one raw operation into a
`TransactionData`, or `none` when the operation kind is unrecognized or any
required field is missing/unparsable (the Python `except` returns `None`).
The Python test `'path_payment' in op_type` (substring containment) is
`(opType.splitOn "path_payment").length ≥ 2`. -/
def parsePaymentOperation (op : RawOperation) (wallet_address : String) :
    Option TransactionData := do
  let opType ← op.type
  let timestamp ← op.created_at
  if opType = "payment" then
    let from_addr ← op.fromAddr
    let to_addr ← op.toAddr
    let amount ← op.amount
    let asset ← op.asset_type
    let tx_type := if from_addr = wallet_address then "payment" else "receive"
    let idv ← op.id
    pure { id := idv, type := tx_type, amount := amount
           asset := if asset = "native" then "XLM" else asset
           from_address := from_addr, to_address := to_addr
           timestamp := timestamp, successful := op.successful.getD true
           memo := op.memo }
  else if (opType.splitOn "path_payment").length ≥ 2 then
    let from_addr ← op.fromAddr
    let to_addr ← op.toAddr
    if from_addr = wallet_address then
      let amount ← op.source_amount
      let asset ← op.source_asset_type
      let idv ← op.id
      pure { id := idv, type := "path_payment_send", amount := amount
             asset := if asset = "native" then "XLM" else asset
             from_address := from_addr, to_address := to_addr
             timestamp := timestamp, successful := op.successful.getD true
             memo := op.memo }
    else
      let amount ← op.amount
      let asset ← op.asset_type
      let idv ← op.id
      pure { id := idv, type := "path_payment_receive", amount := amount
             asset := if asset = "native" then "XLM" else asset
             from_address := from_addr, to_address := to_addr
             timestamp := timestamp, successful := op.successful.getD true
             memo := op.memo }
  else
    none

/-- Outcome of the Horizon `operations().for_account(...).call()` request in
`_fetch_wallet_transactions`: a `NotFoundError`, some other transport
failure, or a list of raw records. -/
inductive FetchOutcome where
  | notFound : FetchOutcome
  | failure : FetchOutcome
  | records : List RawOperation → FetchOutcome
deriving Repr

/-- The record loop of `_fetch_wallet_transactions`: filter by date, filter
by operation kind, parse.  `none` models an exception escaping the loop
(an unreadable `created_at` or a missing `type` key raises before any
per-record handler, aborting the whole batch). -/
def processOperations (address : String) (cutoff : ℚ) :
    List RawOperation → Option (List TransactionData)
  | [] => some []
  | op :: rest => do
      let op_date ← op.created_at
      let parsed_rest ← processOperations address cutoff rest
      if op_date < cutoff then
        pure parsed_rest
      else
        let opType ← op.type
        if opType ∈ ["payment", "path_payment_strict_send", "path_payment_strict_receive"] then
          match parsePaymentOperation op address with
          | some tx => pure (tx :: parsed_rest)
          | none => pure parsed_rest
        else
          pure parsed_rest

/-- `_fetch_wallet_transactions`: any `NotFoundError` or other exception —
including one raised inside the record loop — is caught and yields the
empty list.  `cutoff` is the `three_months_ago` bound. -/
def fetchWalletTransactions (outcome : FetchOutcome) (address : String)
    (cutoff : ℚ) : List TransactionData :=
  match outcome with
  | .notFound => []
  | .failure => []
  | .records ops => (processOperations address cutoff ops).getD []

/-- `df['timestamp'].min()` over the transaction list (0 on the empty list,
which the callers guard against). -/
def minTimestamp : List TransactionData → ℚ
  | [] => 0
  | tx :: rest => rest.foldl (fun acc t => min acc t.timestamp) tx.timestamp

/-- `df['timestamp'].max()` over the transaction list. -/
def maxTimestamp : List TransactionData → ℚ
  | [] => 0
  | tx :: rest => rest.foldl (fun acc t => max acc t.timestamp) tx.timestamp

/-- `_calculate_volume_metrics`: XLM amounts are worth $0.10 each, all
other assets are treated as $1 stablecoins. -/
def calculateVolumeMetrics (txs : List TransactionData) : ℚ :=
  txs.foldl
    (fun volume tx =>
      if tx.asset = "XLM" then volume + tx.amount * 0.10
      else volume + tx.amount) 0

/-- `_calculate_usage_frequency`: transactions per month; the observed span
in whole days (`timedelta.days`, i.e. the floor) divided by 30, floored at
one month. -/
def calculateUsageFrequency (txs : List TransactionData) : ℚ :=
  if txs.length = 0 then 0
  else
    let min_date := minTimestamp txs
    let max_date := maxTimestamp txs
    let period_days : ℤ := ⌊max_date - min_date⌋
    let period_months : ℚ := max ((period_days : ℚ) / 30) 1
    (txs.length : ℚ) / period_months

/-- `_calculate_diversification_score`: 0.6 × kind diversity + 0.4 × asset
diversity, each a capped distinct-count ratio (`nunique` is `dedup.length`). -/
def calculateDiversificationScore (txs : List TransactionData) : ℚ :=
  if txs.length = 0 then 0
  else
    let unique_types := ((txs.map (fun tx => tx.type)).dedup).length
    let type_diversity : ℚ := min ((unique_types : ℚ) / 3) 1
    let unique_assets := ((txs.map (fun tx => tx.asset)).dedup).length
    let asset_diversity : ℚ := min ((unique_assets : ℚ) / 5) 1
    type_diversity * 0.6 + asset_diversity * 0.4

/-- `_estimate_average_balance`: max(mean amount × 10, net flow × 0.1),
where a transaction is outgoing when its source address is the wallet. -/
def estimateAverageBalance (txs : List TransactionData) (address : String) : ℚ :=
  if txs.length = 0 then 0
  else
    let inflow := ((txs.filter (fun tx => ¬ tx.from_address = address)).map
      (fun tx => tx.amount)).sum
    let outflow := ((txs.filter (fun tx => tx.from_address = address)).map
      (fun tx => tx.amount)).sum
    let net_flow := inflow - outflow
    let avg_transaction := ((txs.map (fun tx => tx.amount)).sum) / (txs.length : ℚ)
    max (avg_transaction * 10) (net_flow * 0.1)

/-- `_calculate_age_score`: whole days since the oldest transaction
(`timedelta.days`), the fixed floor 0.3 under 30 days, otherwise capped
`days/365`.  `now` stands for `datetime.now()`. -/
def calculateAgeScore (txs : List TransactionData) (now : ℚ) : ℚ :=
  if txs.length = 0 then 0
  else
    let oldest_tx := minTimestamp txs
    let days_active : ℤ := ⌊now - oldest_tx⌋
    if days_active < 30 then 0.3
    else min ((days_active : ℚ) / 365) 1

/-- `_calculate_network_activity`: capped distinct-transaction-id ratio
(the `id` column always exists for rows built from `TransactionData`). -/
def calculateNetworkActivity (txs : List TransactionData) : ℚ :=
  if txs.length = 0 then 0
  else
    let unique_interactions := ((txs.map (fun tx => tx.id)).dedup).length
    min ((unique_interactions : ℚ) / 50) 1

/-- `_calculate_wallet_metrics`: assemble the eight features.  `now` is the
wall clock consumed by the age feature. -/
def calculateWalletMetrics (txs : List TransactionData) (address : String)
    (now : ℚ) : WalletMetrics :=
  if txs.length = 0 then defaultMetrics
  else
    { total_volume_3m := calculateVolumeMetrics txs
      transaction_count_3m := ((txs.filter (fun tx => tx.successful)).length : ℤ)
      avg_balance := estimateAverageBalance txs address
      payment_punctuality :=
        if txs.length > 0 then
          ((txs.filter (fun tx => tx.successful)).length : ℚ) / (txs.length : ℚ)
        else 0
      usage_frequency := calculateUsageFrequency txs
      diversification_score := calculateDiversificationScore txs
      age_score := calculateAgeScore txs now
      network_activity := calculateNetworkActivity txs }

/-- `_generate_recommendations`: fixed-order threshold rules, with a single
positive message when no rule fires. -/
def generateRecommendations (m : WalletMetrics) (score : ℤ) : List String :=
  let recommendations : List String := []
  let recommendations := if m.usage_frequency < 5 then
    recommendations ++ ["Aumente a frequência de transações para melhorar seu score"]
    else recommendations
  let recommendations := if m.diversification_score < 0.5 then
    recommendations ++ ["Diversifique seus tipos de transação e assets utilizados"]
    else recommendations
  let recommendations := if m.payment_punctuality < 0.9 then
    recommendations ++ ["Mantenha alta taxa de sucesso em suas transações"]
    else recommendations
  let recommendations := if m.avg_balance < 100 then
    recommendations ++ ["Mantenha um saldo médio mais alto para demonstrar estabilidade"]
    else recommendations
  let recommendations := if score < 300 then
    recommendations ++ ["Continue usando a rede Stellar para construir seu histórico"]
    else recommendations
  if recommendations = [] then
    ["Excelente perfil! Continue mantendo seus bons hábitos financeiros"]
  else recommendations

/-- `_create_new_user_score`: the fixed result for wallets with no history. -/
def createNewUserScore : CreditScore :=
  { score := 250
    metrics := defaultMetrics
    risk_level := "HIGH"
    max_loan_amount := 0.0
    interest_rate := 0.10
    recommendations :=
      ["Comece realizando transações na rede Stellar",
       "Mantenha consistência em suas operações",
       "Diversifique os tipos de transações realizadas"] }

/-- `analyze_wallet` downstream of the fetch: the new-user result on an
empty history, otherwise metrics → score → loan terms → recommendations. -/
def analyzeWallet (transactions : List TransactionData) (address : String)
    (now : ℚ) : CreditScore :=
  if transactions.isEmpty then createNewUserScore
  else
    let metrics := calculateWalletMetrics transactions address now
    let score := calculateCreditScore metrics
    let terms := determineLoanTerms score
    { score := score
      metrics := metrics
      risk_level := terms.1
      max_loan_amount := terms.2.1
      interest_rate := terms.2.2
      recommendations := generateRecommendations metrics score }

/-- The metrics of the reference "good payer" mock profile in
`api_server.py` (`get_mock_analysis`). -/
def goodPayerMetrics : WalletMetrics :=
  { total_volume_3m := 15000.0
    transaction_count_3m := 47
    avg_balance := 850.0
    payment_punctuality := 0.95
    usage_frequency := 15.7
    diversification_score := 0.8
    age_score := 0.9
    network_activity := 0.7 }

/-- A concrete well-formed transaction, used to instantiate theorems. -/
def sampleTransaction : TransactionData :=
  { id := "tx_0", type := "payment", amount := 100, asset := "XLM"
    from_address := "GTEST1", to_address := "GTEST2", timestamp := 10
    successful := true, memo := none }

/-- A concrete well-formed raw payment operation (all fields present). -/
def sampleOperation : RawOperation :=
  { id := some "op_1", type := some "payment", created_at := some 100
    fromAddr := some "GTEST1", toAddr := some "GTEST2", amount := some 100
    asset_type := some "native", source_amount := none
    source_asset_type := none, successful := some true, memo := none }

/-- A raw payment operation whose `created_at` is missing or unparsable. -/
def malformedOperation : RawOperation :=
  { id := some "op_2", type := some "payment", created_at := none
    fromAddr := some "GTEST1", toAddr := some "GTEST2", amount := some 50
    asset_type := some "native", source_amount := none
    source_asset_type := none, successful := some true, memo := none }

/-- A raw payment operation with no `successful` flag. -/
def noFlagOperation : RawOperation :=
  { id := some "op_3", type := some "payment", created_at := some 100
    fromAddr := some "GTEST1", toAddr := some "GTEST2", amount := some 100
    asset_type := some "native", source_amount := none
    source_asset_type := none, successful := none, memo := none }

/-- The transaction produced by parsing `noFlagOperation` for wallet
GTEST1: an outgoing payment whose success flag defaulted to `true`. -/
def noFlagTransaction : TransactionData :=
  { id := "op_3", type := "payment", amount := 100, asset := "XLM"
    from_address := "GTEST1", to_address := "GTEST2", timestamp := 100
    successful := true, memo := none }

/-! ## Helper lemmas -/

theorem pyInt_mono {a b : ℚ} (h : a ≤ b) : pyInt a ≤ pyInt b := by
  unfold pyInt
  split_ifs with ha hb hb'
  · exact Int.ceil_mono h
  · have h1 : ⌈a⌉ ≤ 0 := Int.ceil_le.mpr (by push_cast; exact ha.le)
    have h2 : (0 : ℤ) ≤ ⌊b⌋ := Int.floor_nonneg.mpr (not_lt.mp hb)
    omega
  · exact absurd (h.trans_lt hb') ha
  · exact Int.floor_mono h

theorem pyInt_eq_floor {q : ℚ} (h : 0 ≤ q) : pyInt q = ⌊q⌋ := by
  unfold pyInt
  rw [if_neg (not_lt.mpr h)]

/-- Inversion: a successful parse of a `payment`-typed record requires all
five required fields to be present. -/
theorem parsePayment_fields_isSome (op : RawOperation) (wallet : String)
    (tx : TransactionData) (ht : op.type = some "payment")
    (hp : parsePaymentOperation op wallet = some tx) :
    op.fromAddr.isSome ∧ op.toAddr.isSome ∧ op.amount.isSome ∧
    op.asset_type.isSome ∧ op.id.isSome := by
  simp only [parsePaymentOperation, Option.bind_eq_bind, Option.bind_eq_some] at hp
  obtain ⟨t, ht2, d, hd, hp⟩ := hp
  rw [ht] at ht2
  obtain rfl : t = "payment" := by injection ht2 with h; exact h.symm
  rw [if_pos rfl] at hp
  simp only [Option.bind_eq_bind, Option.bind_eq_some, Option.pure_def,
    Option.some.injEq] at hp
  obtain ⟨fa, hfa, ta, hta, a, ha, s, hs, i, hi, hp⟩ := hp
  simp [hfa, hta, ha, hs, hi]

/-- Every transaction the parser produces carries
`successful = op.successful.getD true` — the flag defaults to `true`. -/
theorem parse_successful_getD (op : RawOperation) (wallet : String)
    (tx : TransactionData)
    (hp : parsePaymentOperation op wallet = some tx) :
    tx.successful = op.successful.getD true := by
  simp only [parsePaymentOperation, Option.bind_eq_bind, Option.bind_eq_some] at hp
  obtain ⟨t, ht, d, hd, hp⟩ := hp
  split_ifs at hp with h1 h2
  · simp only [Option.bind_eq_bind, Option.bind_eq_some, Option.pure_def,
      Option.some.injEq] at hp
    obtain ⟨fa, hfa, ta, hta, a, ha, s, hs, i, hi, hp⟩ := hp
    rw [← hp]
  · simp only [Option.bind_eq_bind, Option.bind_eq_some] at hp
    obtain ⟨fa, hfa, ta, hta, hp⟩ := hp
    split_ifs at hp with h3
    · simp only [Option.bind_eq_bind, Option.bind_eq_some, Option.pure_def,
        Option.some.injEq] at hp
      obtain ⟨a, ha, s, hs, i, hi, hp⟩ := hp
      rw [← hp]
    · simp only [Option.bind_eq_bind, Option.bind_eq_some, Option.pure_def,
        Option.some.injEq] at hp
      obtain ⟨a, ha, s, hs, i, hi, hp⟩ := hp
      rw [← hp]

/-! ## Claims -/

/-- **C2**: the loan-terms lookup is a pure function of the score with
top-down first-match thresholds: score ≥ 750 → (LOW, 2000.0, 0.02);
otherwise score ≥ 600 → (LOW, 1000.0, 0.025); otherwise score ≥ 450 →
(MEDIUM, 500.0, 0.04); otherwise score ≥ 300 → (MEDIUM, 200.0, 0.06);
otherwise (HIGH, 0.0, 0.10). -/
theorem determineLoanTerms_thresholds (score : ℤ) :
    (score ≥ 750 → determineLoanTerms score = ("LOW", 2000.0, 0.02)) ∧
    (score < 750 → score ≥ 600 → determineLoanTerms score = ("LOW", 1000.0, 0.025)) ∧
    (score < 600 → score ≥ 450 → determineLoanTerms score = ("MEDIUM", 500.0, 0.04)) ∧
    (score < 450 → score ≥ 300 → determineLoanTerms score = ("MEDIUM", 200.0, 0.06)) ∧
    (score < 300 → determineLoanTerms score = ("HIGH", 0.0, 0.10)) := by
  unfold determineLoanTerms
  refine ⟨fun h => ?_, fun h1 h2 => ?_, fun h1 h2 => ?_, fun h1 h2 => ?_, fun h => ?_⟩
  · rw [if_pos h]
  · rw [if_neg (by omega), if_pos h2]
  · rw [if_neg (by omega), if_neg (by omega), if_pos h2]
  · rw [if_neg (by omega), if_neg (by omega), if_neg (by omega), if_pos h2]
  · rw [if_neg (by omega), if_neg (by omega), if_neg (by omega), if_neg (by omega)]

/-- Witness for **C2** at score 650: the second threshold row applies. -/
theorem determineLoanTerms_thresholds_witness :
    determineLoanTerms 650 = ("LOW", 1000.0, 0.025) :=
  (determineLoanTerms_thresholds 650).2.1 (by norm_num) (by norm_num)

/-- **C3 counterexample**: the claim sends score 749 to
(MEDIUM, 500.0, 0.04), but the code returns (LOW, 1000.0, 0.025),
since 749 ≥ 600 matches the second row first. -/
theorem determineLoanTerms_749_not_medium :
    determineLoanTerms 749 ≠ ("MEDIUM", 500.0, 0.04) := by
  norm_num [determineLoanTerms]

/-- **C3 (amended)**: boundary scores map as: 750 → (LOW, 2000.0, 0.02);
749 → (LOW, 1000.0, 0.025); 300 → (MEDIUM, 200.0, 0.06);
299 → (HIGH, 0.0, 0.10). -/
theorem determineLoanTerms_boundaries :
    determineLoanTerms 750 = ("LOW", 2000.0, 0.02) ∧
    determineLoanTerms 749 = ("LOW", 1000.0, 0.025) ∧
    determineLoanTerms 300 = ("MEDIUM", 200.0, 0.06) ∧
    determineLoanTerms 299 = ("HIGH", 0.0, 0.10) := by
  norm_num [determineLoanTerms]

/-- **C5 counterexample**: composing the good-payer fixture metrics does
not give score 750: the weighted sum is 0.6663, so the score is 666. -/
theorem goodPayer_score_not_750 :
    calculateCreditScore goodPayerMetrics ≠ 750 := by
  norm_num [calculateCreditScore, creditScoreSum, pyInt, goodPayerMetrics]

/-- **C5 (amended)**: composing the good-payer fixture metrics yields
score 666, and the loan-terms lookup maps 666 to (LOW, 1000.0, 0.025) —
not the fixture's hardcoded 750 / LOW / 2000.0 / 0.02. -/
theorem goodPayer_composed_score :
    calculateCreditScore goodPayerMetrics = 666 ∧
    determineLoanTerms (calculateCreditScore goodPayerMetrics) =
      ("LOW", 1000.0, 0.025) := by
  have h : calculateCreditScore goodPayerMetrics = 666 := by
    norm_num [calculateCreditScore, creditScoreSum, pyInt, goodPayerMetrics]
  exact ⟨h, by rw [h]; norm_num [determineLoanTerms]⟩

/-- **C1**: for every metrics vector satisfying the data-model invariants
(all features non-negative), the composed score is an integer in [0,1000]
and equals floor(min(weighted-sum-plus-bonuses × 1000, 1000)); the
all-zero metrics vector scores 0. -/
theorem calculateCreditScore_range (m : WalletMetrics)
    (hv : 0 ≤ m.total_volume_3m) (hp : 0 ≤ m.payment_punctuality)
    (hf : 0 ≤ m.usage_frequency) (hd : 0 ≤ m.diversification_score)
    (hb : 0 ≤ m.avg_balance) (ha : 0 ≤ m.age_score)
    (hn : 0 ≤ m.network_activity) :
    0 ≤ calculateCreditScore m ∧ calculateCreditScore m ≤ 1000 ∧
    calculateCreditScore m = ⌊min (creditScoreSum m * 1000) 1000⌋ ∧
    calculateCreditScore defaultMetrics = 0 := by
  have hsum : 0 ≤ creditScoreSum m := by
    have e1 : (0:ℚ) ≤ min (m.total_volume_3m / 50000) 1 * 0.20 :=
      mul_nonneg (le_min (by positivity) (by norm_num)) (by norm_num)
    have e2 : (0:ℚ) ≤ m.payment_punctuality * 0.30 := mul_nonneg hp (by norm_num)
    have e3 : (0:ℚ) ≤ min (m.usage_frequency / 100) 1 * 0.15 :=
      mul_nonneg (le_min (by positivity) (by norm_num)) (by norm_num)
    have e4 : (0:ℚ) ≤ m.diversification_score * 0.20 := mul_nonneg hd (by norm_num)
    have e5 : (0:ℚ) ≤ min (m.avg_balance / 10000) 1 * 0.15 :=
      mul_nonneg (le_min (by positivity) (by norm_num)) (by norm_num)
    have e6 : (0:ℚ) ≤ m.age_score * 0.1 := mul_nonneg ha (by norm_num)
    have e7 : (0:ℚ) ≤ m.network_activity * 0.05 := mul_nonneg hn (by norm_num)
    simp only [creditScoreSum]
    linarith
  have hq : 0 ≤ min (creditScoreSum m * 1000) 1000 :=
    le_min (mul_nonneg hsum (by norm_num)) (by norm_num)
  have heq : calculateCreditScore m = ⌊min (creditScoreSum m * 1000) 1000⌋ := by
    unfold calculateCreditScore
    exact pyInt_eq_floor hq
  refine ⟨?_, ?_, heq, ?_⟩
  · rw [heq]
    exact Int.floor_nonneg.mpr hq
  · rw [heq]
    calc ⌊min (creditScoreSum m * 1000) 1000⌋ ≤ ⌊(1000:ℚ)⌋ :=
          Int.floor_mono (min_le_right _ _)
      _ = 1000 := by norm_num
  · norm_num [calculateCreditScore, creditScoreSum, pyInt, defaultMetrics]

/-- Witness for **C1** at the good-payer fixture metrics. -/
theorem calculateCreditScore_range_witness :
    0 ≤ calculateCreditScore goodPayerMetrics ∧
    calculateCreditScore goodPayerMetrics ≤ 1000 ∧
    calculateCreditScore goodPayerMetrics =
      ⌊min (creditScoreSum goodPayerMetrics * 1000) 1000⌋ ∧
    calculateCreditScore defaultMetrics = 0 :=
  calculateCreditScore_range goodPayerMetrics
    (by norm_num [goodPayerMetrics]) (by norm_num [goodPayerMetrics])
    (by norm_num [goodPayerMetrics]) (by norm_num [goodPayerMetrics])
    (by norm_num [goodPayerMetrics]) (by norm_num [goodPayerMetrics])
    (by norm_num [goodPayerMetrics])

/-- **C4**: an empty fetched history — including a failed ledger fetch or a
missing account, both of which degrade to the empty list — produces the
fixed new-user result: score 250, tier HIGH, ceiling 0.0, rate 0.10,
all-zero metrics, and exactly 3 recommendations. -/
theorem analyzeWallet_empty_new_user :
    (∀ (address : String) (now : ℚ),
      (analyzeWallet [] address now).score = 250 ∧
      (analyzeWallet [] address now).risk_level = "HIGH" ∧
      (analyzeWallet [] address now).max_loan_amount = 0.0 ∧
      (analyzeWallet [] address now).interest_rate = 0.10 ∧
      (analyzeWallet [] address now).metrics =
        { total_volume_3m := 0, transaction_count_3m := 0, avg_balance := 0
          payment_punctuality := 0, usage_frequency := 0
          diversification_score := 0, age_score := 0, network_activity := 0 } ∧
      (analyzeWallet [] address now).recommendations.length = 3) ∧
    (∀ (address : String) (cutoff : ℚ),
      fetchWalletTransactions FetchOutcome.notFound address cutoff = []) ∧
    (∀ (address : String) (cutoff : ℚ),
      fetchWalletTransactions FetchOutcome.failure address cutoff = []) := by
  refine ⟨fun address now => ?_, fun address cutoff => rfl, fun address cutoff => rfl⟩
  norm_num [analyzeWallet, createNewUserScore, defaultMetrics,
    WalletMetrics.mk.injEq]

/-- **C7**: every `CreditScore` the analysis returns — the new-user result
included — has (risk tier, loan ceiling, interest rate) equal to the
loan-terms lookup applied to its own score field. -/
theorem analyzeWallet_terms_consistent (txs : List TransactionData)
    (address : String) (now : ℚ) :
    ((analyzeWallet txs address now).risk_level,
      (analyzeWallet txs address now).max_loan_amount,
      (analyzeWallet txs address now).interest_rate) =
      determineLoanTerms (analyzeWallet txs address now).score := by
  unfold analyzeWallet
  split_ifs with h
  · norm_num [createNewUserScore, determineLoanTerms]
  · rfl

/-- **C6**: the score composer is monotone non-decreasing in each of the
five weighted features (volume, punctuality, frequency, diversification,
balance) and the two bonus features (age score, network activity),
holding the other features fixed. -/
theorem calculateCreditScore_monotone :
    (∀ (m : WalletMetrics) (v v' : ℚ), v ≤ v' →
      calculateCreditScore { m with total_volume_3m := v } ≤
        calculateCreditScore { m with total_volume_3m := v' }) ∧
    (∀ (m : WalletMetrics) (v v' : ℚ), v ≤ v' →
      calculateCreditScore { m with payment_punctuality := v } ≤
        calculateCreditScore { m with payment_punctuality := v' }) ∧
    (∀ (m : WalletMetrics) (v v' : ℚ), v ≤ v' →
      calculateCreditScore { m with usage_frequency := v } ≤
        calculateCreditScore { m with usage_frequency := v' }) ∧
    (∀ (m : WalletMetrics) (v v' : ℚ), v ≤ v' →
      calculateCreditScore { m with diversification_score := v } ≤
        calculateCreditScore { m with diversification_score := v' }) ∧
    (∀ (m : WalletMetrics) (v v' : ℚ), v ≤ v' →
      calculateCreditScore { m with avg_balance := v } ≤
        calculateCreditScore { m with avg_balance := v' }) ∧
    (∀ (m : WalletMetrics) (v v' : ℚ), v ≤ v' →
      calculateCreditScore { m with age_score := v } ≤
        calculateCreditScore { m with age_score := v' }) ∧
    (∀ (m : WalletMetrics) (v v' : ℚ), v ≤ v' →
      calculateCreditScore { m with network_activity := v } ≤
        calculateCreditScore { m with network_activity := v' }) := by
  refine ⟨?_, ?_, ?_, ?_, ?_, ?_, ?_⟩ <;>
    · intro m v v' h
      apply pyInt_mono
      apply min_le_min _ le_rfl
      apply mul_le_mul_of_nonneg_right _ (by norm_num)
      simp only [creditScoreSum]
      gcongr

/-- Witness for **C6**: raising the punctuality feature of the all-zero
vector from 0 to 1 does not decrease the score. -/
theorem calculateCreditScore_monotone_witness :
    (0:ℚ) ≤ 1 ∧
    calculateCreditScore { defaultMetrics with payment_punctuality := 0 } ≤
      calculateCreditScore { defaultMetrics with payment_punctuality := 1 } :=
  ⟨by norm_num,
   calculateCreditScore_monotone.2.1 defaultMetrics 0 1 (by norm_num)⟩

/-- **C8**: for every non-empty transaction list, the usage-frequency
feature equals (total transaction count) / max(span-in-whole-days / 30, 1)
with span = latest − earliest timestamp; with a single transaction the
divisor is the floor value 1 and the result is transaction count / 1 —
no division by zero occurs. -/
theorem usageFrequency_spec (txs : List TransactionData) (address : String)
    (now : ℚ) (h : txs ≠ []) :
    (calculateWalletMetrics txs address now).usage_frequency =
      (txs.length : ℚ) /
        max (((⌊maxTimestamp txs - minTimestamp txs⌋ : ℤ) : ℚ) / 30) 1 ∧
    ∀ tx : TransactionData,
      (calculateWalletMetrics [tx] address now).usage_frequency =
        (([tx] : List TransactionData).length : ℚ) / 1 := by
  have hlen : ¬ txs.length = 0 := by simpa [List.length_eq_zero] using h
  constructor
  · simp only [calculateWalletMetrics, if_neg hlen, calculateUsageFrequency]
  · intro tx
    simp [calculateWalletMetrics, calculateUsageFrequency, minTimestamp,
      maxTimestamp]

/-- Witness for **C8** on a one-element transaction list. -/
theorem usageFrequency_spec_witness :
    [sampleTransaction] ≠ [] ∧
    (calculateWalletMetrics [sampleTransaction] "GTEST1" 0).usage_frequency =
      (([sampleTransaction] : List TransactionData).length : ℚ) /
        max (((⌊maxTimestamp [sampleTransaction] -
          minTimestamp [sampleTransaction]⌋ : ℤ) : ℚ) / 30) 1 :=
  ⟨by simp,
   (usageFrequency_spec [sampleTransaction] "GTEST1" 0 (by simp)).1⟩

/-- **C9 counterexample**: one malformed record does abort the batch.
A lone good record yields a non-empty transaction list, but adding one
record with a missing/unparsable timestamp makes the fetch degrade the
whole batch to the empty list — the good record's transaction is lost. -/
theorem one_bad_record_empties_batch :
    fetchWalletTransactions (FetchOutcome.records [sampleOperation])
      "GTEST1" 0 ≠ [] ∧
    fetchWalletTransactions
      (FetchOutcome.records [sampleOperation, malformedOperation])
      "GTEST1" 0 = [] := by
  constructor
  · decide
  · decide

/-- **C9 (amended)**: the parser discards, without raising: records with a
missing/unparsable timestamp, records whose kind is neither `payment` nor
a path-payment, and payment records with a missing required field; inside
the fetch loop a record the parser rejects is skipped and the batch
continues.  However a record whose timestamp cannot be read aborts the
whole fetch loop (the batch degrades to the empty list). -/
theorem parser_discards_bad_records :
    (∀ (op : RawOperation) (wallet : String),
      op.created_at = none → parsePaymentOperation op wallet = none) ∧
    (∀ (op : RawOperation) (wallet : String) (t : String),
      op.type = some t → t ≠ "payment" →
      (t.splitOn "path_payment").length < 2 →
      parsePaymentOperation op wallet = none) ∧
    (∀ (op : RawOperation) (wallet : String),
      op.type = some "payment" →
      (op.fromAddr = none ∨ op.toAddr = none ∨ op.amount = none ∨
        op.asset_type = none ∨ op.id = none) →
      parsePaymentOperation op wallet = none) ∧
    (∀ (op : RawOperation) (rest : List RawOperation) (address : String)
      (cutoff d : ℚ) (t : String),
      op.created_at = some d → op.type = some t →
      parsePaymentOperation op address = none →
      processOperations address cutoff (op :: rest) =
        processOperations address cutoff rest) ∧
    (∀ (op : RawOperation) (rest : List RawOperation) (address : String)
      (cutoff : ℚ), op.created_at = none →
      processOperations address cutoff (op :: rest) = none) := by
  refine ⟨?_, ?_, ?_, ?_, ?_⟩
  · intro op wallet h
    cases hti : op.type <;> simp [parsePaymentOperation, h, hti]
  · intro op wallet t ht h2 h3
    cases hts : op.created_at <;>
      simp [parsePaymentOperation, ht, hts, h2, Nat.not_le_of_lt h3]
  · intro op wallet ht h
    cases hps : parsePaymentOperation op wallet with
    | none => rfl
    | some tx =>
      have hinv := parsePayment_fields_isSome op wallet tx ht hps
      rcases h with h | h | h | h | h <;> simp [h] at hinv
  · intro op rest address cutoff d t hd ht hp
    cases hr : processOperations address cutoff rest <;>
      simp [processOperations, hd, ht, hp, hr]
  · intro op rest address cutoff h
    simp [processOperations, h]

/-- Witness for **C9**: the parser returns `none` on a record with a
missing timestamp. -/
theorem parser_discards_bad_records_witness :
    malformedOperation.created_at = none ∧
    parsePaymentOperation malformedOperation "GTEST1" = none :=
  ⟨rfl, parser_discards_bad_records.1 malformedOperation "GTEST1" rfl⟩

/-- **C10**: a payment-family record lacking the success flag parses to a
transaction with `successful = true`, which therefore counts toward
`transaction_count_3m` and toward the numerator of
`payment_punctuality`. -/
theorem parse_defaults_successful (op : RawOperation) (wallet : String)
    (tx : TransactionData) (hs : op.successful = none)
    (hp : parsePaymentOperation op wallet = some tx) :
    tx.successful = true ∧
    ∀ (rest : List TransactionData) (address : String) (now : ℚ),
      (calculateWalletMetrics (tx :: rest) address now).transaction_count_3m =
        ((rest.filter (fun t => t.successful)).length : ℤ) + 1 ∧
      (calculateWalletMetrics (tx :: rest) address now).payment_punctuality =
        (((rest.filter (fun t => t.successful)).length : ℚ) + 1) /
          ((tx :: rest).length : ℚ) := by
  have htx : tx.successful = true := by
    rw [parse_successful_getD op wallet tx hp, hs]
    rfl
  refine ⟨htx, fun rest address now => ⟨?_, ?_⟩⟩
  · simp [calculateWalletMetrics, List.filter_cons, htx]
  · simp [calculateWalletMetrics, List.filter_cons, htx]

/-- Witness for **C10**: `noFlagOperation` has no success flag, parses to
`noFlagTransaction`, and that transaction's flag is `true`. -/
theorem parse_defaults_successful_witness :
    noFlagOperation.successful = none ∧
    parsePaymentOperation noFlagOperation "GTEST1" =
      some noFlagTransaction ∧
    noFlagTransaction.successful = true :=
  ⟨rfl, by decide,
   (parse_defaults_successful noFlagOperation "GTEST1" noFlagTransaction
      rfl (by decide)).1⟩

end StellarCredit
